import Mathlib

/-!
Shallow embedding of the `renogymodbus` charge-controller client.

`renogymodbus/charge_controller.py` is embedded definition by definition.
The raw-read primitive `retriable_read_register` lives in
`renogymodbus/retriable_instrument.py`, which is not part of the sources at
hand; it is modelled from the specification (section 4.3): the client hands
back the raw integer value of the words it read, the `numberOfDecimals`
hint and the `signed` flag are accepted but not applied, and the serial
configuration is constant for the client's lifetime.

Reads are modelled against an oracle `Exchange` giving, for a register
address and a Modbus function code, the raw 16-bit word a successful wire
exchange yields.  Every getter returns its value together with the
controller state after the call and the list of raw-read calls it issued,
so that call-discipline invariants (function code, signedness, state
preservation) can be stated and proved.
-/

namespace Renogymodbus

/-- Serial parity setting as configured through pyserial. -/
inductive Parity
  | none
  | even
  | odd
deriving DecidableEq

/-- Modbus transmission mode as configured through minimalmodbus. -/
inductive ModbusMode
  | rtu
  | ascii
deriving DecidableEq

/-- The serial-port settings mutated by `RenogyChargeController.__init__`. -/
structure SerialPort where
  baudrate : Nat
  bytesize : Nat
  parity : Parity
  stopbits : Nat
  timeout : Nat
deriving DecidableEq

/-- The instrument state visible in `charge_controller.py`: the serial-port
settings, the Modbus mode and the buffer-clearing flag. -/
structure ControllerState where
  serial : SerialPort
  mode : ModbusMode
  clear_buffers_before_each_transaction : Bool
deriving DecidableEq

/-- `RenogyChargeController.__init__` (charge_controller.py, lines 16-25):
baud rate 9600, 8 data bits, no parity, 1 stop bit, 1 second timeout,
Modbus RTU mode, input-buffer clearing before each transaction enabled. -/
def RenogyChargeController.init : ControllerState :=
  { serial :=
      { baudrate := 9600
        bytesize := 8
        parity := Parity.none
        stopbits := 1
        timeout := 1 }
    mode := ModbusMode.rtu
    clear_buffers_before_each_transaction := true }

/-- One recorded invocation of the raw-read primitive, with the argument
list of `retriable_read_register(registeraddress, numberOfDecimals,
functioncode, signed)`. -/
structure ReadCall where
  registeraddress : Nat
  numberOfDecimals : Nat
  functioncode : Nat
  signed : Bool
deriving DecidableEq

/-- The wire oracle: the raw 16-bit word a successful exchange yields for a
register address and a function code.  Only wire-visible arguments appear:
the decimal hint and the signedness flag are not transmitted. -/
abbrev Exchange := Nat → Nat → Nat

/-- Modelled from the spec: `retriable_read_register` is defined in
`renogymodbus/retriable_instrument.py`, which is not among the sources at
hand.  Per specification section 4.3 the client returns the raw integer
value of the words it read, `numberOfDecimals` and `signed` are accepted
for interface symmetry but not applied, and per sections 3 and 6 the serial
configuration is external and constant for the client's lifetime, so the
state is returned unchanged.  The returned list records the call made. -/
def retriable_read_register (st : ControllerState) (ex : Exchange)
    (registeraddress numberOfDecimals functioncode : Nat) (signed : Bool) :
    Nat × ControllerState × List ReadCall :=
  (ex registeraddress functioncode, st,
    [{ registeraddress := registeraddress
       numberOfDecimals := numberOfDecimals
       functioncode := functioncode
       signed := signed }])

/-- `get_controller_voltage_rating`: high byte of register 0x0A. -/
def get_controller_voltage_rating (st : ControllerState) (ex : Exchange) :
    Nat × ControllerState × List ReadCall :=
  let r := retriable_read_register st ex 0x0A 0 3 false
  ((r.1 &&& 0xFF00) >>> 8, r.2.1, r.2.2)

/-- `get_controller_current_rating`: low byte of register 0x0A. -/
def get_controller_current_rating (st : ControllerState) (ex : Exchange) :
    Nat × ControllerState × List ReadCall :=
  let r := retriable_read_register st ex 0x0A 0 3 false
  (r.1 &&& 0x00FF, r.2.1, r.2.2)

/-- `get_controller_discharge_rating`: high byte of register 0x0B. -/
def get_controller_discharge_rating (st : ControllerState) (ex : Exchange) :
    Nat × ControllerState × List ReadCall :=
  let r := retriable_read_register st ex 0x0B 0 3 false
  ((r.1 &&& 0xFF00) >>> 8, r.2.1, r.2.2)

/-- `get_controller_type`: low byte of register 0x0B. -/
def get_controller_type (st : ControllerState) (ex : Exchange) :
    Nat × ControllerState × List ReadCall :=
  let r := retriable_read_register st ex 0x0B 0 3 false
  (r.1 &&& 0x00FF, r.2.1, r.2.2)

/-- Strict UTF-8 decoding of a byte sequence into characters, as performed
by Python's `bytes.decode(encoding='utf-8')`: one to four byte sequences
per code point, continuation bytes in 0x80-0xBF, overlong encodings,
surrogate code points, code points above 0x10FFFF and stray lead or
continuation bytes all rejected. -/
def utf8Decode : List Nat → Option (List Char)
  | [] => some []
  | b1 :: rest =>
    if b1 ≤ 0x7F then
      (utf8Decode rest).map (fun cs => Char.ofNat b1 :: cs)
    else if b1 ≤ 0xC1 then
      none
    else if b1 ≤ 0xDF then
      match rest with
      | b2 :: rest2 =>
        if 0x80 ≤ b2 && b2 ≤ 0xBF then
          (utf8Decode rest2).map (fun cs =>
            Char.ofNat ((b1 - 0xC0) * 64 + (b2 - 0x80)) :: cs)
        else none
      | [] => none
    else if b1 ≤ 0xEF then
      match rest with
      | b2 :: b3 :: rest3 =>
        if (if b1 == 0xE0 then 0xA0 ≤ b2 && b2 ≤ 0xBF
            else if b1 == 0xED then 0x80 ≤ b2 && b2 ≤ 0x9F
            else 0x80 ≤ b2 && b2 ≤ 0xBF) && (0x80 ≤ b3 && b3 ≤ 0xBF) then
          (utf8Decode rest3).map (fun cs =>
            Char.ofNat ((b1 - 0xE0) * 4096 + (b2 - 0x80) * 64 + (b3 - 0x80)) :: cs)
        else none
      | _ => none
    else if b1 ≤ 0xF4 then
      match rest with
      | b2 :: b3 :: b4 :: rest4 =>
        if (if b1 == 0xF0 then 0x90 ≤ b2 && b2 ≤ 0xBF
            else if b1 == 0xF4 then 0x80 ≤ b2 && b2 ≤ 0x8F
            else 0x80 ≤ b2 && b2 ≤ 0xBF) && (0x80 ≤ b3 && b3 ≤ 0xBF)
            && (0x80 ≤ b4 && b4 ≤ 0xBF) then
          (utf8Decode rest4).map (fun cs =>
            Char.ofNat ((b1 - 0xF0) * 262144 + (b2 - 0x80) * 4096
              + (b3 - 0x80) * 64 + (b4 - 0x80)) :: cs)
        else none
      | _ => none
    else none

/-- One iteration of the byte-assembly loop whose body appears verbatim in
both `get_controller_model` and `get_controller_serial_number`: read one
register with `retriable_read_register(reg, 0, 3, False)` and append the
word's high byte then its low byte to the output. -/
def readAppendStep (ex : Exchange)
    (acc : List Nat × ControllerState × List ReadCall) (reg : Nat) :
    List Nat × ControllerState × List ReadCall :=
  let r := retriable_read_register acc.2.1 ex reg 0 3 false
  (acc.1 ++ [(r.1 &&& 0xFF00) >>> 8, r.1 &&& 0x00FF], r.2.1, acc.2.2 ++ r.2.2)

/-- `get_controller_model`: assemble the bytes of registers 0x0C-0x13 and
decode them as UTF-8 (`output.decode(encoding='utf-8')`, which raises on
invalid input, hence the `Option`). -/
def get_controller_model (st : ControllerState) (ex : Exchange) :
    Option String × ControllerState × List ReadCall :=
  let r := (List.range' 0x0C 8).foldl (readAppendStep ex) ([], st, [])
  ((utf8Decode r.1).map String.mk, r.2.1, r.2.2)

/-- `get_controller_software_version`: registers 0x14 and 0x15 as a pair. -/
def get_controller_software_version (st : ControllerState) (ex : Exchange) :
    (Nat × Nat) × ControllerState × List ReadCall :=
  let r1 := retriable_read_register st ex 0x14 0 3 false
  let r2 := retriable_read_register r1.2.1 ex 0x15 0 3 false
  ((r1.1, r2.1), r2.2.1, r1.2.2 ++ r2.2.2)

/-- `get_controller_hardware_version`: registers 0x16 and 0x17 as a pair. -/
def get_controller_hardware_version (st : ControllerState) (ex : Exchange) :
    (Nat × Nat) × ControllerState × List ReadCall :=
  let r1 := retriable_read_register st ex 0x16 0 3 false
  let r2 := retriable_read_register r1.2.1 ex 0x17 0 3 false
  ((r1.1, r2.1), r2.2.1, r1.2.2 ++ r2.2.2)

/-- `get_controller_serial_number`: assemble the bytes of registers
0x18-0x19 and return them uninterpreted (a `bytearray`). -/
def get_controller_serial_number (st : ControllerState) (ex : Exchange) :
    List Nat × ControllerState × List ReadCall :=
  (List.range' 0x18 2).foldl (readAppendStep ex) ([], st, [])

/-- `get_controller_modbus_address`: register 0x1A. -/
def get_controller_modbus_address (st : ControllerState) (ex : Exchange) :
    Nat × ControllerState × List ReadCall :=
  retriable_read_register st ex 0x1A 0 3 false

/-- `get_solar_voltage`: register 0x0107, decimal hint 1. -/
def get_solar_voltage (st : ControllerState) (ex : Exchange) :
    Nat × ControllerState × List ReadCall :=
  retriable_read_register st ex 0x0107 1 3 false

/-- `get_solar_current`: register 0x0108, decimal hint 2. -/
def get_solar_current (st : ControllerState) (ex : Exchange) :
    Nat × ControllerState × List ReadCall :=
  retriable_read_register st ex 0x0108 2 3 false

/-- `get_solar_power`: register 0x0109. -/
def get_solar_power (st : ControllerState) (ex : Exchange) :
    Nat × ControllerState × List ReadCall :=
  retriable_read_register st ex 0x0109 0 3 false

/-- `get_load_voltage`: register 0x0104, decimal hint 1. -/
def get_load_voltage (st : ControllerState) (ex : Exchange) :
    Nat × ControllerState × List ReadCall :=
  retriable_read_register st ex 0x0104 1 3 false

/-- `get_load_current`: register 0x0105, decimal hint 2. -/
def get_load_current (st : ControllerState) (ex : Exchange) :
    Nat × ControllerState × List ReadCall :=
  retriable_read_register st ex 0x0105 2 3 false

/-- `get_load_power`: register 0x0106. -/
def get_load_power (st : ControllerState) (ex : Exchange) :
    Nat × ControllerState × List ReadCall :=
  retriable_read_register st ex 0x0106 0 3 false

/-- `get_battery_voltage`: register 0x0101, decimal hint 1. -/
def get_battery_voltage (st : ControllerState) (ex : Exchange) :
    Nat × ControllerState × List ReadCall :=
  retriable_read_register st ex 0x0101 1 3 false

/-- `get_battery_current`: register 0x102, decimal hint 2. -/
def get_battery_current (st : ControllerState) (ex : Exchange) :
    Nat × ControllerState × List ReadCall :=
  retriable_read_register st ex 0x102 2 3 false

/-- `get_battery_state_of_charge`: register 0x0100. -/
def get_battery_state_of_charge (st : ControllerState) (ex : Exchange) :
    Nat × ControllerState × List ReadCall :=
  retriable_read_register st ex 0x0100 0 3 false

/-- `get_battery_temperature`: signed-magnitude lower half of register
0x0103 — magnitude in bits 0-6, sign flag in bit 7. -/
def get_battery_temperature (st : ControllerState) (ex : Exchange) :
    Int × ControllerState × List ReadCall :=
  let r := retriable_read_register st ex 0x0103 0 3 false
  let register_value := r.1
  let battery_temperature := register_value &&& 0b0000000001111111
  let battery_temperature_sign := (register_value &&& 0b0000000010000000) >>> 7
  (if battery_temperature_sign = 1 then -(battery_temperature : Int)
   else (battery_temperature : Int), r.2.1, r.2.2)

/-- `get_controller_temperature`: signed-magnitude upper half of register
0x0103 — magnitude in bits 8-14, sign flag in bit 15. -/
def get_controller_temperature (st : ControllerState) (ex : Exchange) :
    Int × ControllerState × List ReadCall :=
  let r := retriable_read_register st ex 0x0103 0 3 false
  let register_value := r.1
  let controller_temperature := (register_value &&& 0b0111111100000000) >>> 8
  let controller_temperature_sign := (register_value &&& 0b1000000000000000) >>> 15
  (if controller_temperature_sign = 1 then -(controller_temperature : Int)
   else (controller_temperature : Int), r.2.1, r.2.2)

/-- `get_maximum_solar_power_today`: register 0x010F. -/
def get_maximum_solar_power_today (st : ControllerState) (ex : Exchange) :
    Nat × ControllerState × List ReadCall :=
  retriable_read_register st ex 0x010F 0 3 false

/-- `get_minimum_solar_power_today`: register 0x0110. -/
def get_minimum_solar_power_today (st : ControllerState) (ex : Exchange) :
    Nat × ControllerState × List ReadCall :=
  retriable_read_register st ex 0x0110 0 3 false

/-- `get_maximum_battery_voltage_today`: register 0x010C, decimal hint 1. -/
def get_maximum_battery_voltage_today (st : ControllerState) (ex : Exchange) :
    Nat × ControllerState × List ReadCall :=
  retriable_read_register st ex 0x010C 1 3 false

/-- `get_minimum_battery_voltage_today`: register 0x010B, decimal hint 1. -/
def get_minimum_battery_voltage_today (st : ControllerState) (ex : Exchange) :
    Nat × ControllerState × List ReadCall :=
  retriable_read_register st ex 0x010B 1 3 false

/-- `get_maximum_charge_current_today`: register 0x010D. -/
def get_maximum_charge_current_today (st : ControllerState) (ex : Exchange) :
    Nat × ControllerState × List ReadCall :=
  retriable_read_register st ex 0x010D 0 3 false

/-- `get_maximum_load_current_today`: register 0x010E. -/
def get_maximum_load_current_today (st : ControllerState) (ex : Exchange) :
    Nat × ControllerState × List ReadCall :=
  retriable_read_register st ex 0x010E 0 3 false

/-- `get_charge_today`: register 0x111. -/
def get_charge_today (st : ControllerState) (ex : Exchange) :
    Nat × ControllerState × List ReadCall :=
  retriable_read_register st ex 0x111 0 3 false

/-- `get_discharge_today`: register 0x112. -/
def get_discharge_today (st : ControllerState) (ex : Exchange) :
    Nat × ControllerState × List ReadCall :=
  retriable_read_register st ex 0x112 0 3 false

/-- `get_charge_energy_today`: register 0x113. -/
def get_charge_energy_today (st : ControllerState) (ex : Exchange) :
    Nat × ControllerState × List ReadCall :=
  retriable_read_register st ex 0x113 0 3 false

/-- `get_discharge_energy_today`: register 0x114. -/
def get_discharge_energy_today (st : ControllerState) (ex : Exchange) :
    Nat × ControllerState × List ReadCall :=
  retriable_read_register st ex 0x114 0 3 false

/-- `get_controller_uptime`: register 0x115. -/
def get_controller_uptime (st : ControllerState) (ex : Exchange) :
    Nat × ControllerState × List ReadCall :=
  retriable_read_register st ex 0x115 0 3 false

/-- `get_total_battery_overcharges`: register 0x116. -/
def get_total_battery_overcharges (st : ControllerState) (ex : Exchange) :
    Nat × ControllerState × List ReadCall :=
  retriable_read_register st ex 0x116 0 3 false

/-- `get_total_battery_full_charges`: register 0x117. -/
def get_total_battery_full_charges (st : ControllerState) (ex : Exchange) :
    Nat × ControllerState × List ReadCall :=
  retriable_read_register st ex 0x117 0 3 false

/-- The spec's multi-register string-assembly rule (section 4.4), stated in
the spec's own words: for each 16-bit word in register order, append its
high byte then its low byte. -/
def stringAssembly : List Nat → List Nat
  | [] => []
  | w :: ws => ((w &&& 0xFF00) >>> 8) :: (w &&& 0x00FF) :: stringAssembly ws

/-- Error taxonomy of one exchange attempt, from specification section 7. -/
inductive ExchangeError
  | timeout
  | shortRead
  | portError
  | frameError
  | deviceException (code : Nat)
  | encodingError
deriving DecidableEq

/-- The retry policy of specification section 3: a fixed maximum attempt
count and the set of error kinds considered retriable. -/
structure RetryPolicy where
  max_attempts : Nat
  retriable_kinds : ExchangeError → Bool

/-- Modelled from the spec: the attempt loop of `read_register` in
`renogymodbus/retriable_instrument.py`, which is not among the sources at
hand.  Per specification section 4.3: perform one exchange; on success
return immediately; on a retriable failure with attempts remaining, retry;
otherwise surface the last error as terminal.  `exchange n` is the outcome
of exchange attempt number `n`, `remaining` the attempts still permitted
and `made` the attempts already performed.  The result pairs the final
outcome (`none` exactly when the policy permitted no attempt at all) with
the total number of exchange attempts performed. -/
def attemptLoop (exchange : Nat → Except ExchangeError Nat)
    (retriable : ExchangeError → Bool) :
    Nat → Nat → Option (Except ExchangeError Nat) × Nat
  | 0, made => (none, made)
  | remaining + 1, made =>
    match exchange made with
    | Except.ok v => (some (Except.ok v), made + 1)
    | Except.error e =>
      if retriable e && (remaining != 0) then
        attemptLoop exchange retriable remaining (made + 1)
      else (some (Except.error e), made + 1)

/-- Modelled from the spec: `read_register` of the Retriable Register
Client runs the attempt loop bounded by `RetryPolicy.max_attempts`,
starting with no attempts performed. -/
def read_register (exchange : Nat → Except ExchangeError Nat)
    (policy : RetryPolicy) : Option (Except ExchangeError Nat) × Nat :=
  attemptLoop exchange policy.retriable_kinds policy.max_attempts 0

theorem attemptLoop_const_error (exchange : Nat → Except ExchangeError Nat)
    (retriable : ExchangeError → Bool) (e : ExchangeError)
    (hto : ∀ n, exchange n = Except.error e) (hret : retriable e = true) :
    ∀ remaining made, 0 < remaining →
      attemptLoop exchange retriable remaining made =
        (some (Except.error e), made + remaining) := by
  intro remaining
  induction remaining with
  | zero => intro made h; exact absurd h (Nat.lt_irrefl 0)
  | succ k ih =>
    intro made _
    rw [attemptLoop, hto made]
    show (if (retriable e && (k != 0)) = true then
        attemptLoop exchange retriable k (made + 1)
      else (some (Except.error e), made + 1)) = (some (Except.error e), made + (k + 1))
    by_cases hk : k = 0
    · subst hk
      simp [hret]
    · rw [if_pos (by simp [hret, hk]), ih (made + 1) (Nat.pos_of_ne_zero hk)]
      have h : made + 1 + k = made + (k + 1) := by omega
      rw [h]

theorem and_two_pow_shiftRight (w i : Nat) :
    (w &&& 2 ^ i) >>> i = (w.testBit i).toNat := by
  rw [Nat.and_two_pow, Nat.shiftRight_eq_div_pow, Nat.mul_div_cancel]
  positivity

theorem and_shift_sign_iff (w i m : Nat) (hm : m = 2 ^ i) :
    ((w &&& m) >>> i = 1) ↔ w.testBit i = true := by
  subst hm
  rw [and_two_pow_shiftRight]
  cases h : w.testBit i <;> simp

theorem and_mask_shiftRight (w : Nat) :
    (w &&& 0x7F00) >>> 8 = (w >>> 8) &&& 0x7F := by
  apply Nat.eq_of_testBit_eq
  intro i
  rw [Nat.testBit_shiftRight, Nat.testBit_land, Nat.testBit_land,
    Nat.testBit_shiftRight]
  rcases Nat.lt_or_ge i 7 with hi | hi
  · interval_cases i <;> (congr 1 <;> decide)
  · have h1 : Nat.testBit 127 i = false :=
      Nat.testBit_eq_false_of_lt (Nat.lt_of_lt_of_le (by decide : (127 : Nat) < 2 ^ 7)
        (Nat.pow_le_pow_right (by decide) hi))
    have h2 : Nat.testBit 32512 (8 + i) = false :=
      Nat.testBit_eq_false_of_lt (Nat.lt_of_lt_of_le (by decide : (32512 : Nat) < 2 ^ 15)
        (Nat.pow_le_pow_right (by decide) (by omega)))
    simp [h1, h2]

/-- C1: if every transport exchange fails with `Timeout`, then
`read_register` performs exactly `RetryPolicy.max_attempts` exchange
attempts and then fails terminally with that error — never fewer attempts,
never more, and no fallback value is returned. -/
theorem read_register_retry_bound (policy : RetryPolicy)
    (exchange : Nat → Except ExchangeError Nat)
    (hto : ∀ n, exchange n = Except.error ExchangeError.timeout)
    (hret : policy.retriable_kinds ExchangeError.timeout = true)
    (hpos : 0 < policy.max_attempts) :
    read_register exchange policy =
      (some (Except.error ExchangeError.timeout), policy.max_attempts) := by
  have h := attemptLoop_const_error exchange policy.retriable_kinds
    ExchangeError.timeout hto hret policy.max_attempts 0 hpos
  simpa [read_register] using h

theorem read_register_retry_bound_witness :
    read_register (fun _ => Except.error ExchangeError.timeout)
      { max_attempts := 3
        retriable_kinds := fun e =>
          match e with
          | ExchangeError.timeout => true
          | ExchangeError.shortRead => true
          | ExchangeError.portError => true
          | ExchangeError.frameError => true
          | _ => false } =
      (some (Except.error ExchangeError.timeout), 3) :=
  read_register_retry_bound _ _ (fun _ => rfl) rfl (by decide)

/-- C2: for every register word `w` read from register 0x0103,
`get_battery_temperature` returns `-(w &&& 0x7F)` when bit 7 of `w` is set
and `w &&& 0x7F` otherwise, and `get_controller_temperature` returns
`-((w >>> 8) &&& 0x7F)` when bit 15 of `w` is set and
`(w >>> 8) &&& 0x7F` otherwise — two independent signed-magnitude values
extracted from the same word. -/
theorem temperature_signed_magnitude_split (st : ControllerState) (ex : Exchange) :
    (get_battery_temperature st ex).1 =
      (if (ex 0x0103 3).testBit 7 then -(((ex 0x0103 3) &&& 0x7F : Nat) : Int)
       else (((ex 0x0103 3) &&& 0x7F : Nat) : Int)) ∧
    (get_controller_temperature st ex).1 =
      (if (ex 0x0103 3).testBit 15 then -((((ex 0x0103 3) >>> 8) &&& 0x7F : Nat) : Int)
       else ((((ex 0x0103 3) >>> 8) &&& 0x7F : Nat) : Int)) := by
  constructor
  · simp only [get_battery_temperature, retriable_read_register,
      and_shift_sign_iff (ex 0x0103 3) 7 128 (by norm_num)]
  · simp only [get_controller_temperature, retriable_read_register,
      and_mask_shiftRight,
      and_shift_sign_iff (ex 0x0103 3) 15 32768 (by norm_num)]

/-- C3 counterexample: with register 0x0103 holding the word 0x8005,
`get_controller_temperature` returns 0 (bits 8-14 are all zero), not -5. -/
theorem controller_temperature_0x8005_ne :
    (get_controller_temperature RenogyChargeController.init
      (fun _ _ => 0x8005)).1 ≠ (-5 : Int) := by decide

/-- C3 amended: when register 0x0103 holds the word 0x8500,
`get_controller_temperature` returns -5 (sign bit 15 set, magnitude 5 in
bits 8-14); when it holds 0x0500, the decoded value is +5. -/
theorem controller_temperature_signed_magnitude_examples :
    (get_controller_temperature RenogyChargeController.init
      (fun _ _ => 0x8500)).1 = (-5 : Int) ∧
    (get_controller_temperature RenogyChargeController.init
      (fun _ _ => 0x0500)).1 = (5 : Int) := by decide

/-- C4: the `decimal_places_hint` and `signed` arguments do not affect the
value returned by the raw-read primitive, and the getters that pass a
nonzero hint (`get_solar_voltage` with hint 1, `get_solar_current` and
`get_battery_current` with hint 2) return exactly the raw word of the
exchange, with no division by a power of ten and no sign
reinterpretation. -/
theorem raw_read_ignores_hint_and_signed (st : ControllerState) (ex : Exchange)
    (reg h1 h2 fc : Nat) (s1 s2 : Bool) :
    (retriable_read_register st ex reg h1 fc s1).1 =
      (retriable_read_register st ex reg h2 fc s2).1 ∧
    (get_solar_voltage st ex).1 = ex 0x0107 3 ∧
    (get_solar_current st ex).1 = ex 0x0108 3 ∧
    (get_battery_current st ex).1 = ex 0x102 3 :=
  ⟨rfl, rfl, rfl, rfl⟩

/-- C5: `get_controller_model` assembles, over the 8 registers 0x0C-0x13 in
register order, each word's high byte then its low byte, and interprets the
byte sequence as UTF-8; the word sequence `[0x4142, 0x4344]` assembles and
decodes to the string "ABCD". -/
theorem controller_model_string_assembly (st : ControllerState) (ex : Exchange) :
    (get_controller_model st ex).1 =
      (utf8Decode (stringAssembly
        ((List.range' 0x0C 8).map (fun r => ex r 3)))).map String.mk ∧
    (utf8Decode (stringAssembly [0x4142, 0x4344])).map String.mk =
      some "ABCD" :=
  ⟨rfl, by decide⟩

/-- C6: if reading register 0x0100 with function code 3, non-signed, yields
the raw word 42, then `get_battery_state_of_charge` returns the integer 42
unchanged. -/
theorem battery_state_of_charge_raw42 (st : ControllerState) (ex : Exchange)
    (h : ex 0x0100 3 = 42) :
    (get_battery_state_of_charge st ex).1 = 42 := by
  simp [get_battery_state_of_charge, retriable_read_register, h]

theorem battery_state_of_charge_raw42_witness :
    (get_battery_state_of_charge RenogyChargeController.init
      (fun _ _ => 42)).1 = 42 :=
  battery_state_of_charge_raw42 RenogyChargeController.init (fun _ _ => 42) rfl

/-- C7: construction configures 8 data bits, no parity, 1 stop bit, a
1-second read timeout, baud rate 9600, Modbus RTU mode and input-buffer
clearing before every transaction, and no getter changes the controller
state. -/
theorem serial_configuration_invariant :
    RenogyChargeController.init.serial.bytesize = 8 ∧
    RenogyChargeController.init.serial.parity = Parity.none ∧
    RenogyChargeController.init.serial.stopbits = 1 ∧
    RenogyChargeController.init.serial.timeout = 1 ∧
    RenogyChargeController.init.serial.baudrate = 9600 ∧
    RenogyChargeController.init.mode = ModbusMode.rtu ∧
    RenogyChargeController.init.clear_buffers_before_each_transaction = true ∧
    ∀ (st : ControllerState) (ex : Exchange),
      (get_controller_voltage_rating st ex).2.1 = st ∧
      (get_controller_current_rating st ex).2.1 = st ∧
      (get_controller_discharge_rating st ex).2.1 = st ∧
      (get_controller_type st ex).2.1 = st ∧
      (get_controller_model st ex).2.1 = st ∧
      (get_controller_software_version st ex).2.1 = st ∧
      (get_controller_hardware_version st ex).2.1 = st ∧
      (get_controller_serial_number st ex).2.1 = st ∧
      (get_controller_modbus_address st ex).2.1 = st ∧
      (get_solar_voltage st ex).2.1 = st ∧
      (get_solar_current st ex).2.1 = st ∧
      (get_solar_power st ex).2.1 = st ∧
      (get_load_voltage st ex).2.1 = st ∧
      (get_load_current st ex).2.1 = st ∧
      (get_load_power st ex).2.1 = st ∧
      (get_battery_voltage st ex).2.1 = st ∧
      (get_battery_current st ex).2.1 = st ∧
      (get_battery_state_of_charge st ex).2.1 = st ∧
      (get_battery_temperature st ex).2.1 = st ∧
      (get_controller_temperature st ex).2.1 = st ∧
      (get_maximum_solar_power_today st ex).2.1 = st ∧
      (get_minimum_solar_power_today st ex).2.1 = st ∧
      (get_maximum_battery_voltage_today st ex).2.1 = st ∧
      (get_minimum_battery_voltage_today st ex).2.1 = st ∧
      (get_maximum_charge_current_today st ex).2.1 = st ∧
      (get_maximum_load_current_today st ex).2.1 = st ∧
      (get_charge_today st ex).2.1 = st ∧
      (get_discharge_today st ex).2.1 = st ∧
      (get_charge_energy_today st ex).2.1 = st ∧
      (get_discharge_energy_today st ex).2.1 = st ∧
      (get_controller_uptime st ex).2.1 = st ∧
      (get_total_battery_overcharges st ex).2.1 = st ∧
      (get_total_battery_full_charges st ex).2.1 = st :=
  ⟨rfl, rfl, rfl, rfl, rfl, rfl, rfl, fun _ _ =>
    ⟨rfl, rfl, rfl, rfl, rfl, rfl, rfl, rfl, rfl, rfl, rfl, rfl, rfl, rfl,
     rfl, rfl, rfl, rfl, rfl, rfl, rfl, rfl, rfl, rfl, rfl, rfl, rfl, rfl,
     rfl, rfl, rfl, rfl, rfl⟩⟩

/-- C8: the version getters return the two adjacent raw register words
verbatim as an ordered pair — software from 0x14/0x15, hardware from
0x16/0x17, lower-addressed register first, with no decoding applied. -/
theorem version_tuples_verbatim (st : ControllerState) (ex : Exchange) :
    (get_controller_software_version st ex).1 = (ex 0x14 3, ex 0x15 3) ∧
    (get_controller_hardware_version st ex).1 = (ex 0x16 3, ex 0x17 3) :=
  ⟨rfl, rfl⟩

/-- C9: every getter of `RenogyChargeController` invokes the raw-read
primitive with function code 3 and `signed = False` only. -/
theorem all_getters_function_code_3_unsigned (st : ControllerState) (ex : Exchange) :
    ((get_controller_voltage_rating st ex).2.2).all
      (fun c => c.functioncode == 3 && !c.signed) = true ∧
    ((get_controller_current_rating st ex).2.2).all
      (fun c => c.functioncode == 3 && !c.signed) = true ∧
    ((get_controller_discharge_rating st ex).2.2).all
      (fun c => c.functioncode == 3 && !c.signed) = true ∧
    ((get_controller_type st ex).2.2).all
      (fun c => c.functioncode == 3 && !c.signed) = true ∧
    ((get_controller_model st ex).2.2).all
      (fun c => c.functioncode == 3 && !c.signed) = true ∧
    ((get_controller_software_version st ex).2.2).all
      (fun c => c.functioncode == 3 && !c.signed) = true ∧
    ((get_controller_hardware_version st ex).2.2).all
      (fun c => c.functioncode == 3 && !c.signed) = true ∧
    ((get_controller_serial_number st ex).2.2).all
      (fun c => c.functioncode == 3 && !c.signed) = true ∧
    ((get_controller_modbus_address st ex).2.2).all
      (fun c => c.functioncode == 3 && !c.signed) = true ∧
    ((get_solar_voltage st ex).2.2).all
      (fun c => c.functioncode == 3 && !c.signed) = true ∧
    ((get_solar_current st ex).2.2).all
      (fun c => c.functioncode == 3 && !c.signed) = true ∧
    ((get_solar_power st ex).2.2).all
      (fun c => c.functioncode == 3 && !c.signed) = true ∧
    ((get_load_voltage st ex).2.2).all
      (fun c => c.functioncode == 3 && !c.signed) = true ∧
    ((get_load_current st ex).2.2).all
      (fun c => c.functioncode == 3 && !c.signed) = true ∧
    ((get_load_power st ex).2.2).all
      (fun c => c.functioncode == 3 && !c.signed) = true ∧
    ((get_battery_voltage st ex).2.2).all
      (fun c => c.functioncode == 3 && !c.signed) = true ∧
    ((get_battery_current st ex).2.2).all
      (fun c => c.functioncode == 3 && !c.signed) = true ∧
    ((get_battery_state_of_charge st ex).2.2).all
      (fun c => c.functioncode == 3 && !c.signed) = true ∧
    ((get_battery_temperature st ex).2.2).all
      (fun c => c.functioncode == 3 && !c.signed) = true ∧
    ((get_controller_temperature st ex).2.2).all
      (fun c => c.functioncode == 3 && !c.signed) = true ∧
    ((get_maximum_solar_power_today st ex).2.2).all
      (fun c => c.functioncode == 3 && !c.signed) = true ∧
    ((get_minimum_solar_power_today st ex).2.2).all
      (fun c => c.functioncode == 3 && !c.signed) = true ∧
    ((get_maximum_battery_voltage_today st ex).2.2).all
      (fun c => c.functioncode == 3 && !c.signed) = true ∧
    ((get_minimum_battery_voltage_today st ex).2.2).all
      (fun c => c.functioncode == 3 && !c.signed) = true ∧
    ((get_maximum_charge_current_today st ex).2.2).all
      (fun c => c.functioncode == 3 && !c.signed) = true ∧
    ((get_maximum_load_current_today st ex).2.2).all
      (fun c => c.functioncode == 3 && !c.signed) = true ∧
    ((get_charge_today st ex).2.2).all
      (fun c => c.functioncode == 3 && !c.signed) = true ∧
    ((get_discharge_today st ex).2.2).all
      (fun c => c.functioncode == 3 && !c.signed) = true ∧
    ((get_charge_energy_today st ex).2.2).all
      (fun c => c.functioncode == 3 && !c.signed) = true ∧
    ((get_discharge_energy_today st ex).2.2).all
      (fun c => c.functioncode == 3 && !c.signed) = true ∧
    ((get_controller_uptime st ex).2.2).all
      (fun c => c.functioncode == 3 && !c.signed) = true ∧
    ((get_total_battery_overcharges st ex).2.2).all
      (fun c => c.functioncode == 3 && !c.signed) = true ∧
    ((get_total_battery_full_charges st ex).2.2).all
      (fun c => c.functioncode == 3 && !c.signed) = true :=
  ⟨rfl, rfl, rfl, rfl, rfl, rfl, rfl, rfl, rfl, rfl, rfl, rfl, rfl, rfl,
   rfl, rfl, rfl, rfl, rfl, rfl, rfl, rfl, rfl, rfl, rfl, rfl, rfl, rfl,
   rfl, rfl, rfl, rfl, rfl⟩

/-- C10: `get_controller_model` is not total over raw register contents:
with every register word equal to 0xFFFF the assembled byte sequence is not
valid UTF-8 and the getter fails with a decode error instead of returning a
string, whereas `get_controller_serial_number` returns the assembled bytes
uninterpreted for every word sequence. -/
theorem controller_model_partial_serial_total (st : ControllerState) (ex : Exchange) :
    (get_controller_model RenogyChargeController.init
      (fun _ _ => 0xFFFF)).1 = none ∧
    (get_controller_serial_number st ex).1 =
      stringAssembly [ex 0x18 3, ex 0x19 3] :=
  ⟨by decide, rfl⟩

end Renogymodbus
